import Mathlib

/-!
Verification of the littera repository: a shallow embedding of the chat API
route (src/src/app/api/ai/chat/route.ts), the QuickActions component
(src/src/components/AiStudio/features/QuickActions/QuickActions.tsx), the
tone action (src/.../QuickActions/actions/tone.ts), the composer panel
(src/src/components/aiComposer/ComposerPanel.tsx), the chat input
(src/.../CustomInstructions/components/ChatInput.tsx), and the document
patcher described by the specification.
-/

namespace Littera

/-! ## Chat route: src/src/app/api/ai/chat/route.ts -/

/-- `const MESSAGE_COUNT_THRESHOLD = 3` (route.ts line 18). -/
def MESSAGE_COUNT_THRESHOLD : Nat := 3

/-- JavaScript `String.prototype.trim`: remove leading and trailing
whitespace. -/
def jsTrim (s : String) : String :=
  String.mk
    (((s.data.dropWhile Char.isWhitespace).reverse.dropWhile
      Char.isWhitespace).reverse)

/-- A message held by the buffer memory.  The route stores human messages
with tags, AI messages, and system messages (the summary). -/
inductive Msg where
  | human (content : String) (tags : List String)
  | ai (content : String)
  | system (content : String)
deriving DecidableEq, Repr

/-- The mutable per-session state of `EnhancedBufferMemory`: the private
`messageCount` field and the buffered chat history. -/
structure MemState where
  messageCount : Nat
  history : List Msg
deriving DecidableEq, Repr

/-- A fresh memory starts with `messageCount = 0` and an empty buffer. -/
def initMemState : MemState := { messageCount := 0, history := [] }

/-- External nondeterminism of one POST request: the result of the chain
invocation attempt `i` (`none` = the attempt throws), the tag string the
tagger chain produces for an input, and the summary the summarizer chain
produces for a conversation. -/
structure PostEnv where
  invokeResults : Nat → Option String
  tagsFor : String → String
  summaryOf : List Msg → String

/-- `EnhancedBufferMemory.saveContext` (route.ts lines 84-137): increment
`messageCount`, tag the input, append the enhanced human/AI pair to the
buffer; once the count reaches `MESSAGE_COUNT_THRESHOLD`, summarize the
whole buffer, clear it, reset the count to 0 and store the summary as a
single system-message exchange. -/
def saveContext (env : PostEnv) (st : MemState) (input output : String) : MemState :=
  let messageCount := st.messageCount + 1
  let tags := ((env.tagsFor input).splitOn ",").map jsTrim
  let chatHistory := st.history ++ [Msg.human input tags, Msg.ai output]
  if messageCount ≥ MESSAGE_COUNT_THRESHOLD then
    let summary := env.summaryOf chatHistory
    { messageCount := 0
      history := [Msg.system summary, Msg.ai "Summary processed and saved to memory"] }
  else
    { messageCount := messageCount, history := chatHistory }

/-- One entry of `memoryStorage`: the `EnhancedBufferMemory` object for a
session.  `createdAt` records the index of the request that allocated the
object; it never changes, so it serves as the identity of the object. -/
structure EnhancedBufferMemory where
  createdAt : Nat
  mem : MemState
deriving DecidableEq, Repr

/-- `const memoryStorage = new Map<string, EnhancedBufferMemory>()`
(route.ts line 10), as an association list keyed by session id. -/
abbrev MemoryStorage := List (String × EnhancedBufferMemory)

/-- `memoryStorage.get(sessionId)`. -/
def storeLookup : MemoryStorage → String → Option EnhancedBufferMemory
  | [], _ => none
  | (k, v) :: rest, key => if k = key then some v else storeLookup rest key

/-- `memoryStorage.set(sessionId, m)` for a key already present: replace
the bound value in place. -/
def storeUpdate : MemoryStorage → String → EnhancedBufferMemory → MemoryStorage
  | [], _, _ => []
  | (k, v) :: rest, key, nv =>
    if k = key then (k, nv) :: rest else (k, v) :: storeUpdate rest key nv

/-- The JSON body of a POST request.  `none` models an absent field. -/
structure ChatRequest where
  message : Option String
  modelName : Option String
  temperature : Option ℚ
  sessionId : Option String

/-- JavaScript falsiness of an optional string field: absent or empty. -/
def isFalsy : Option String → Bool
  | none => true
  | some s => s = ""

/-- The `if (!message || !modelName || !sessionId)` guard (route.ts 164). -/
def missingRequiredFields (req : ChatRequest) : Bool :=
  isFalsy req.message || isFalsy req.modelName || isFalsy req.sessionId

/-- What the handler returns: a JSON error response with a status code, or
a streaming response built from the generated text. -/
inductive ChatResponse where
  | json (status : Nat) (error : String)
  | streaming (body : String)
deriving DecidableEq, Repr

/-- The retry loop of the POST handler (route.ts lines 212-230):
`while (attempts < maxAttempts)` invoke the chain; on failure increment
`attempts`, rethrow when `attempts === maxAttempts`, otherwise sleep
`Math.pow(2, attempts) * 1000` ms and retry.  Returns the number of
invocations made, the list of back-off delays (ms) slept, and the response
(`none` when every attempt failed and the error is rethrown).  `fuel`
bounds the iteration count; the loop runs at most `maxAttempts` times. -/
def retryLoopAux (invoke : Nat → Option String) (maxAttempts : Nat) :
    Nat → Nat → List Nat → Nat × List Nat × Option String
  | 0, attempts, delays => (attempts, delays, none)
  | fuel + 1, attempts, delays =>
    if attempts < maxAttempts then
      match invoke attempts with
      | some r => (attempts + 1, delays, some r)
      | none =>
        if attempts + 1 = maxAttempts then (attempts + 1, delays, none)
        else retryLoopAux invoke maxAttempts fuel (attempts + 1)
          (delays ++ [2 ^ (attempts + 1) * 1000])
    else (attempts, delays, none)

/-- The retry loop with `attempts = 0`, `maxAttempts = 3` as in the
source. -/
def retryLoop (invoke : Nat → Option String) : Nat × List Nat × Option String :=
  retryLoopAux invoke 3 3 0 []

/-- Observable outcome of one POST request. -/
structure PostTrace where
  response : ChatResponse
  /-- The `(modelName, temperature)` passed to `initializeAIModel`, or
  `none` when the handler returned before initializing a model. -/
  modelInit : Option (String × ℚ)
  /-- Whether a new `EnhancedBufferMemory` was allocated and stored. -/
  memoryCreated : Bool
  /-- Whether `loadMemoryVariables` was called on the session memory. -/
  memoryRead : Bool
  /-- Number of chain invocation attempts made. -/
  attempts : Nat
  /-- Back-off delays slept between attempts, in milliseconds. -/
  delays : List Nat
  /-- The memory storage after the request. -/
  store : MemoryStorage

/-- The POST handler (route.ts lines 158-253): validate required fields,
initialize the model, get-or-create the session memory, load the history,
run the retry loop, then save the interaction and stream the response; a
thrown error is caught and converted to a 500 JSON response. -/
def postModel (env : PostEnv) (store : MemoryStorage) (reqIndex : Nat)
    (req : ChatRequest) : PostTrace :=
  if missingRequiredFields req then
    { response := ChatResponse.json 400 "Missing required fields"
      modelInit := none, memoryCreated := false, memoryRead := false
      attempts := 0, delays := [], store := store }
  else
    let message := req.message.getD ""
    let modelName := req.modelName.getD ""
    let temperature := req.temperature.getD (1 / 2 : ℚ)
    let sessionId := req.sessionId.getD ""
    let modelInit := some (modelName, temperature)
    match storeLookup store sessionId with
    | some memory =>
      let result := retryLoop env.invokeResults
      match result.2.2 with
      | none =>
        { response := ChatResponse.json 500 "Failed to process message"
          modelInit := modelInit, memoryCreated := false, memoryRead := true
          attempts := result.1, delays := result.2.1, store := store }
      | some response =>
        let memory2 := { memory with mem := saveContext env memory.mem message response }
        { response := ChatResponse.streaming response
          modelInit := modelInit, memoryCreated := false, memoryRead := true
          attempts := result.1, delays := result.2.1
          store := storeUpdate store sessionId memory2 }
    | none =>
      let memory : EnhancedBufferMemory := { createdAt := reqIndex, mem := initMemState }
      let store1 := store ++ [(sessionId, memory)]
      let result := retryLoop env.invokeResults
      match result.2.2 with
      | none =>
        { response := ChatResponse.json 500 "Failed to process message"
          modelInit := modelInit, memoryCreated := true, memoryRead := true
          attempts := result.1, delays := result.2.1, store := store1 }
      | some response =>
        let memory2 := { memory with mem := saveContext env memory.mem message response }
        { response := ChatResponse.streaming response
          modelInit := modelInit, memoryCreated := true, memoryRead := true
          attempts := result.1, delays := result.2.1
          store := storeUpdate store1 sessionId memory2 }

/-- A sequence of POST requests, each with its own external environment,
threaded through the process-wide `memoryStorage`. -/
def runRequests (store : MemoryStorage) (reqIndex : Nat) :
    List (PostEnv × ChatRequest) → MemoryStorage
  | [] => store
  | (env, req) :: rest =>
    runRequests (postModel env store reqIndex req).store (reqIndex + 1) rest

/-! ## QuickActions: src/.../QuickActions/QuickActions.tsx -/

/-- One entry of the `QUICK_ACTIONS` constant: its identifier, label,
description, and recommended model/temperature.  (The icon and color are
presentation only and are not modelled.) -/
structure QuickAction where
  id : String
  label : String
  description : String
  model : String
  temperature : ℚ
deriving DecidableEq, Repr

/-- The `QUICK_ACTIONS` array (QuickActions.tsx lines 30-174). -/
def QUICK_ACTIONS : List QuickAction :=
  [ { id := "grammar", label := "Fix Grammar"
      description := "Correct grammar, punctuation and spelling"
      model := "Gemini-1.5-pro", temperature := 1 / 10 }
  , { id := "translate", label := "Translate"
      description := "Translate text to another language"
      model := "Gemini-1.5-pro", temperature := 3 / 10 }
  , { id := "localization", label := "Localization"
      description := "Adapt content for specific regions and cultures"
      model := "Qwen-QWQ-32b", temperature := 7 / 10 }
  , { id := "readability", label := "Improve Clarity"
      description := "Enhance sentence flow and refine word choice"
      model := "Claude-3.5-haiku", temperature := 4 / 10 }
  , { id := "length", label := "Adjust Length"
      description := "Expand and condense text while preserving key information"
      model := "Gemini-1.5-flash", temperature := 5 / 10 }
  , { id := "readingLevel", label := "Reading Level"
      description := "Analyze and adjust text complexity"
      model := "Claude-3.5-sonnet", temperature := 3 / 10 }
  , { id := "audience", label := "Target Audience"
      description := "Adapt text for a specific audience or expertise level"
      model := "GPT-4o", temperature := 6 / 10 }
  , { id := "tone", label := "Tone"
      description := "Adjust emotional tone (friendly, formal, enthusiastic)"
      model := "Grok-2", temperature := 8 / 10 }
  , { id := "intent", label := "Intent"
      description := "Optimize text for specific purpose (persuade, inform, engage)"
      model := "GPT-4o", temperature := 7 / 10 }
  , { id := "domain", label := "Domain"
      description := "Modify writing domain (academic, business, technical)"
      model := "Deepseek-v3", temperature := 5 / 10 }
  , { id := "summarize", label := "Summarize"
      description := "Generate key points and condensed versions of text"
      model := "Mistral Small", temperature := 3 / 10 }
  , { id := "structure", label := "Structure (coming soon)"
      description := "Organize content hierarchically with headings, paragraphs, and list layouts."
      model := "Llama 3.3-70b", temperature := 4 / 10 }
  , { id := "plagiarism", label := "Plagiarism Check (coming soon)"
      description := "Check for content originality and citations"
      model := "Deepseek-v3", temperature := 1 / 10 } ]

/-- The identifiers offered by the component
(`QUICK_ACTIONS.map(a => a.id)`). -/
def quickActionIds : List String := QUICK_ACTIONS.map (fun a => a.id)

/-- What `renderActionButton` puts on the rendered `Button` element, as far
as behaviour is concerned: the `disabled` attribute, the processing/active
flags (used for the spinner and styling), and whether an `onClick` handler
is attached (`length`, `readingLevel` and `audience` instead dispatch
through their popover components). -/
structure RenderedButton where
  disabled : Bool
  isProcessing : Bool
  isActive : Bool
  hasOnClick : Bool
deriving DecidableEq, Repr

/-- `renderActionButton` (QuickActions.tsx lines 336-359):
`isProcessing = processingAction === action.id`,
`isAnyProcessing = !!processingAction`, `disabled = isAnyProcessing`;
`onClick` is `undefined` for the `length`, `readingLevel` and `audience`
actions and `handleActionClick(action)` otherwise. -/
def renderActionButton (processingAction activePopover : Option String)
    (action : QuickAction) : RenderedButton :=
  let isProcessing := processingAction = some action.id
  let isAnyProcessing := processingAction.isSome
  let isActive := activePopover = some action.id
  { disabled := isAnyProcessing
    isProcessing := decide isProcessing
    isActive := decide isActive
    hasOnClick :=
      !(action.id = "length" || action.id = "readingLevel" || action.id = "audience") }

/-- DOM click semantics: a disabled button never fires its `onClick`
handler, so `onActionSelect` can only be reached through an enabled button
that has a handler attached. -/
def clickFiresActionSelect (b : RenderedButton) : Bool :=
  !b.disabled && b.hasOnClick

/-! ## ComposerPanel: src/src/components/aiComposer/ComposerPanel.tsx -/

/-- The state `handleSubmit` touches: the controlled `inputValue` and the
list of submissions performed so far (the submission itself is a TODO
`console.log` in the source; the list records that it happened). -/
structure ComposerState where
  inputValue : String
  submitted : List String
deriving DecidableEq, Repr

/-- `handleSubmit` (ComposerPanel.tsx lines 111-116):
`if (!inputValue.trim()) return`, otherwise submit and
reset the input value to the empty string. -/
def handleSubmit (s : ComposerState) : ComposerState :=
  if jsTrim s.inputValue = "" then s
  else { inputValue := "", submitted := s.submitted ++ [s.inputValue] }

/-! ## ChatInput: src/.../CustomInstructions/components/ChatInput.tsx -/

/-- The state `handleSend` touches: the controlled `message`, the
`isLoading` prop, and the messages passed to the `onSend` callback so
far. -/
structure ChatInputState where
  message : String
  isLoading : Bool
  sent : List String
deriving DecidableEq, Repr

/-- `handleSend` (ChatInput.tsx lines 40-49):
`if (!message.trim() || isLoading) return`, otherwise `onSend(message)`
and reset the message to the empty string. -/
def handleSend (s : ChatInputState) : ChatInputState :=
  if jsTrim s.message = "" || s.isLoading then s
  else { message := "", isLoading := s.isLoading, sent := s.sent ++ [s.message] }

/-! ## Tone action: src/.../QuickActions/actions/tone.ts -/

/-- A transformation scope: the whole document or a selection range
(spec §3, `useScope`). -/
inductive Scope where
  | document
  | selection (anchor head : Nat)
deriving DecidableEq, Repr

/-- The editor as the tone action observes it: its document text. -/
structure Editor where
  doc : String
deriving DecidableEq, Repr

/-- Modelled from the spec: `getTextFromScope` (the TextExtractor of
§4.2, implemented in `core/editor/editorUtils`, which is outside the
provided sources) returns the full document serialization for a
`Document` scope and the text of the resolved range for a `Selection` scope. -/
def getTextFromScope (editor : Editor) (scope : Scope) : String :=
  match scope with
  | Scope.document => editor.doc
  | Scope.selection anchor head =>
    let lo := min anchor head
    let hi := max anchor head
    String.mk ((editor.doc.data.take hi).drop lo)

/-- The request body `handleTone` builds: `{ text, modelName, temperature,
tone }`. -/
structure TonePayload where
  text : String
  modelName : String
  temperature : ℚ
  tone : String
deriving DecidableEq, Repr

/-- The `visualFeedback` option of the streaming handler. -/
structure VisualFeedback where
  mark : Option String
deriving DecidableEq, Repr

/-- The request a streaming handler opens: endpoint, payload and
options. -/
structure StreamingHandlerCall where
  endpoint : String
  payload : TonePayload
  visualFeedback : VisualFeedback
deriving DecidableEq, Repr

/-- Modelled from the spec: `createStreamingHandler` (StreamingTransformClient,
§4.3/§6, implemented in `core/editor/editorUtils`, outside the provided
sources) opens a request to the given endpoint carrying the given payload,
with the given visual-feedback options; modelled as the request descriptor
it opens. -/
def createStreamingHandler (endpoint : String) (payload : TonePayload)
    (visualFeedback : VisualFeedback) : StreamingHandlerCall :=
  { endpoint := endpoint, payload := payload, visualFeedback := visualFeedback }

/-- `handleTone` (tone.ts lines 6-33): extract the text of the scope and open a
streaming request to `/api/ai/tone` with
`{ text: inputText, modelName, temperature, tone }` and
a visual feedback option marking the range with the "strike" mark. -/
def handleTone (editor : Editor) (scope : Scope) (modelName : String)
    (temperature : ℚ) (tone : String) : StreamingHandlerCall :=
  let inputText := getTextFromScope editor scope
  createStreamingHandler "/api/ai/tone"
    { text := inputText, modelName := modelName, temperature := temperature
      tone := tone }
    { mark := some "strike" }

/-! ## DocumentPatcher (spec §4.4; the implementation lives in
`core/editor/editorUtils`, outside the provided sources) -/

/-- Modelled from the spec: an `EditSession` of the DocumentPatcher
(§4.4): the live document, the resolved target range, the running
insertion cursor, and whether the first chunk has been applied. -/
structure EditSession where
  doc : List Char
  rangeStart : Nat
  rangeEnd : Nat
  cursor : Nat
  firstChunkApplied : Bool
deriving DecidableEq, Repr

/-- Modelled from the spec: `beginEdit` (§4.4) establishes a running
insertion cursor at the start of the range. -/
def beginEdit (doc : List Char) (rangeStart rangeEnd : Nat) : EditSession :=
  { doc := doc, rangeStart := rangeStart, rangeEnd := rangeEnd
    cursor := rangeStart, firstChunkApplied := false }

/-- Modelled from the spec: `applyChunk` (§4.4) replaces the remaining
original range content with the first chunk and appends subsequent chunks
at the advancing cursor; the patcher owns a single running cursor and
never re-resolves positions. -/
def applyChunk (s : EditSession) (chunk : List Char) : EditSession :=
  if s.firstChunkApplied then
    { s with doc := s.doc.take s.cursor ++ chunk ++ s.doc.drop s.cursor
             cursor := s.cursor + chunk.length }
  else
    { s with doc := s.doc.take s.rangeStart ++ chunk ++ s.doc.drop s.rangeEnd
             cursor := s.rangeStart + chunk.length
             firstChunkApplied := true }

/-- Chunks are applied one at a time, in arrival order. -/
def applyChunks (s : EditSession) (chunks : List (List Char)) : EditSession :=
  chunks.foldl applyChunk s

/-- The current content of the replaced range: the text between the
start of the range and the running cursor. -/
def replacedContent (s : EditSession) : List Char :=
  (s.doc.drop s.rangeStart).take (s.cursor - s.rangeStart)

/-! ## Sample values used by the concrete witnesses -/

/-- A sample environment whose first two chain invocations fail and whose
third succeeds. -/
def thirdTryEnv : PostEnv :=
  { invokeResults := fun i => if i = 2 then some "final answer" else none
    tagsFor := fun _ => "alpha, beta"
    summaryOf := fun _ => "a short summary" }

/-- A sample environment whose every chain invocation fails. -/
def allFailEnv : PostEnv :=
  { invokeResults := fun _ => none
    tagsFor := fun _ => "alpha, beta"
    summaryOf := fun _ => "a short summary" }

/-- A well-formed sample request with no temperature field. -/
def sampleRequest : ChatRequest :=
  { message := some "hello", modelName := some "gpt-4"
    temperature := none, sessionId := some "s1" }

/-- A sample request missing the `message` field. -/
def missingFieldRequest : ChatRequest :=
  { message := none, modelName := some "gpt-4"
    temperature := none, sessionId := some "s1" }

/-- A well-formed sample request that supplies a temperature. -/
def warmRequest : ChatRequest :=
  { message := some "hello", modelName := some "gpt-4"
    temperature := some (7 / 10 : ℚ), sessionId := some "s1" }

/-- The first entry of `QUICK_ACTIONS`. -/
def grammarAction : QuickAction :=
  { id := "grammar", label := "Fix Grammar"
    description := "Correct grammar, punctuation and spelling"
    model := "Gemini-1.5-pro", temperature := 1 / 10 }

/-! ## Claims -/

/-- C1: while an action is processing (`processingAction` is non-null),
every rendered quick-action button is disabled, so no `onActionSelect`
callback can fire until the active action has terminated. -/
theorem quickActions_busy_buttons_disabled
    (action : QuickAction) (_hmem : action ∈ QUICK_ACTIONS)
    (processingAction activePopover : Option String)
    (h : processingAction ≠ none) :
    (renderActionButton processingAction activePopover action).disabled = true ∧
    clickFiresActionSelect
      (renderActionButton processingAction activePopover action) = false := by
  cases processingAction with
  | none => exact absurd rfl h
  | some p => simp [renderActionButton, clickFiresActionSelect]

/-- Witness for C1: with the `tone` action processing, the `grammar`
button is disabled and clicking it fires no dispatch. -/
theorem quickActions_busy_buttons_disabled_witness :
    (renderActionButton (some "tone") none grammarAction).disabled = true ∧
    clickFiresActionSelect
      (renderActionButton (some "tone") none grammarAction) = false :=
  quickActions_busy_buttons_disabled grammarAction
    (by unfold grammarAction QUICK_ACTIONS; exact List.mem_cons_self _ _)
    (some "tone") none (by simp)

/-- C3 counterexample: the set of identifiers offered by the component is
not the enumerated set claimed in the specification: no action has the
identifier `clarity` (the action labelled "Improve Clarity" has the
identifier `readability`). -/
theorem quickActionIds_ne_claimed_set :
    "clarity" ∉ quickActionIds ∧
    quickActionIds ≠
      ["grammar", "translate", "localization", "clarity", "length",
       "readingLevel", "audience", "tone", "intent", "domain", "summarize",
       "structure", "plagiarism"] := by
  constructor
  · decide
  · intro h
    have h3 := congrArg (fun l => l[3]?) h
    simp [quickActionIds, QUICK_ACTIONS] at h3

/-- C3 amended: the identifiers offered by the component are exactly
`grammar, translate, localization, readability, length, readingLevel,
audience, tone, intent, domain, summarize, structure, plagiarism`, and
the `structure` and `plagiarism` entries are labelled
"coming soon" (reserved/unimplemented). -/
theorem quickActionIds_exact :
    quickActionIds =
      ["grammar", "translate", "localization", "readability", "length",
       "readingLevel", "audience", "tone", "intent", "domain", "summarize",
       "structure", "plagiarism"] ∧
    (QUICK_ACTIONS.filter
        (fun a => a.id == "structure" || a.id == "plagiarism")).map
        (fun a => a.label) =
      ["Structure (coming soon)", "Plagiarism Check (coming soon)"] := by
  constructor
  · rfl
  · rfl

/-- C4: for every input whose whitespace-trimmed form is empty, submission
aborts before any effect: `handleSubmit` returns without submitting and
without clearing the input, and `handleSend` returns without invoking
`onSend` and without clearing the message state. -/
theorem empty_input_aborts (c : ComposerState) (s : ChatInputState)
    (hc : jsTrim c.inputValue = "") (hs : jsTrim s.message = "") :
    handleSubmit c = c ∧ handleSend s = s := by
  constructor
  · simp [handleSubmit, hc]
  · simp [handleSend, hs]

/-- Witness for C4: whitespace-only inputs are ignored unchanged. -/
theorem empty_input_aborts_witness :
    handleSubmit { inputValue := "   ", submitted := [] } =
      { inputValue := "   ", submitted := [] } ∧
    handleSend { message := " ", isLoading := false, sent := [] } =
      { message := " ", isLoading := false, sent := [] } :=
  empty_input_aborts
    { inputValue := "   ", submitted := [] }
    { message := " ", isLoading := false, sent := [] }
    (by decide) (by decide)

/-- C6: for every editor, scope, model name, temperature and tone option,
`handleTone` opens a request to `/api/ai/tone` carrying exactly the text
extracted from the scope, the model identifier, the temperature and the
tone parameter, with visual feedback configured as the `strike` mark. -/
theorem handleTone_request (editor : Editor) (scope : Scope)
    (modelName : String) (temperature : ℚ) (tone : String) :
    handleTone editor scope modelName temperature tone =
      { endpoint := "/api/ai/tone"
        payload :=
          { text := getTextFromScope editor scope
            modelName := modelName, temperature := temperature, tone := tone }
        visualFeedback := { mark := some "strike" } } :=
  rfl

/-- For a well-formed request, the trace of the POST handler exposes the
model initialization arguments, the retry-loop attempt count and delays,
and a response determined by the retry-loop outcome, in every branch of
the handler. -/
theorem postModel_fields (env : PostEnv) (store : MemoryStorage)
    (reqIndex : Nat) (req : ChatRequest)
    (h : missingRequiredFields req = false) :
    (postModel env store reqIndex req).modelInit =
      some (req.modelName.getD "", req.temperature.getD (1 / 2 : ℚ)) ∧
    (postModel env store reqIndex req).attempts =
      (retryLoop env.invokeResults).1 ∧
    (postModel env store reqIndex req).delays =
      (retryLoop env.invokeResults).2.1 ∧
    ((retryLoop env.invokeResults).2.2 = none →
      (postModel env store reqIndex req).response =
        ChatResponse.json 500 "Failed to process message") ∧
    (∀ r, (retryLoop env.invokeResults).2.2 = some r →
      (postModel env store reqIndex req).response =
        ChatResponse.streaming r) := by
  cases hl : storeLookup store (req.sessionId.getD "") with
  | none =>
    cases hr : (retryLoop env.invokeResults).2.2 with
    | none => simp [postModel, h, hl, hr]
    | some r => simp [postModel, h, hl, hr]
  | some memory =>
    cases hr : (retryLoop env.invokeResults).2.2 with
    | none => simp [postModel, h, hl, hr]
    | some r => simp [postModel, h, hl, hr]

/-- C8: a POST request missing any of `message`, `modelName` or
`sessionId` (falsy value) yields a 400 response with body
`error: Missing required fields` before any model is initialized, any
memory is created or read, and any model invocation occurs: the store is
unchanged and zero attempts are made. -/
theorem chat_missing_fields_400 (env : PostEnv) (store : MemoryStorage)
    (reqIndex : Nat) (req : ChatRequest)
    (h : missingRequiredFields req = true) :
    postModel env store reqIndex req =
      { response := ChatResponse.json 400 "Missing required fields"
        modelInit := none, memoryCreated := false, memoryRead := false
        attempts := 0, delays := [], store := store } := by
  simp [postModel, h]

/-- Witness for C8: a request with no `message` field is rejected with a
400 and no side effect. -/
theorem chat_missing_fields_400_witness :
    postModel thirdTryEnv [] 0 missingFieldRequest =
      { response := ChatResponse.json 400 "Missing required fields"
        modelInit := none, memoryCreated := false, memoryRead := false
        attempts := 0, delays := [], store := [] } :=
  chat_missing_fields_400 thirdTryEnv [] 0 missingFieldRequest rfl

/-- C10: when the `temperature` field is omitted, the model is initialized
with the default temperature `0.5`; when it is supplied, that exact value
is passed to `initializeAIModel`. -/
theorem chat_temperature_default (env : PostEnv) (store : MemoryStorage)
    (reqIndex : Nat) (req : ChatRequest)
    (h : missingRequiredFields req = false) :
    (req.temperature = none →
      (postModel env store reqIndex req).modelInit =
        some (req.modelName.getD "", (1 / 2 : ℚ))) ∧
    (∀ t : ℚ, req.temperature = some t →
      (postModel env store reqIndex req).modelInit =
        some (req.modelName.getD "", t)) := by
  have hm := (postModel_fields env store reqIndex req h).1
  constructor
  · intro ht
    rw [hm, ht]
    rfl
  · intro t ht
    rw [hm, ht]
    rfl

/-- Witness for C10: omitting the temperature gives `1/2`; supplying
`7/10` passes `7/10`. -/
theorem chat_temperature_default_witness :
    (postModel thirdTryEnv [] 0 sampleRequest).modelInit =
      some ("gpt-4", (1 / 2 : ℚ)) ∧
    (postModel thirdTryEnv [] 0 warmRequest).modelInit =
      some ("gpt-4", (7 / 10 : ℚ)) :=
  ⟨(chat_temperature_default thirdTryEnv [] 0 sampleRequest rfl).1 rfl,
   (chat_temperature_default thirdTryEnv [] 0 warmRequest rfl).2
     (7 / 10 : ℚ) rfl⟩

/-- C9: after every `saveContext` call the internal message count is
strictly below the summarization threshold (it lies in `{0, 1, 2}`), and
whenever the count reaches `MESSAGE_COUNT_THRESHOLD = 3` the buffered
history is cleared and replaced by a single summary exchange saved as a
system message, with the count reset to 0. -/
theorem saveContext_threshold_invariant (env : PostEnv) (st : MemState)
    (input output : String) :
    (saveContext env st input output).messageCount <
      MESSAGE_COUNT_THRESHOLD ∧
    (st.messageCount = 2 →
      (saveContext env st input output).messageCount = 0 ∧
      (saveContext env st input output).history =
        [Msg.system (env.summaryOf (st.history ++
            [Msg.human input (((env.tagsFor input).splitOn ",").map jsTrim),
             Msg.ai output])),
         Msg.ai "Summary processed and saved to memory"]) := by
  constructor
  · unfold saveContext MESSAGE_COUNT_THRESHOLD
    dsimp only
    split
    · show (0 : Nat) < 3
      decide
    · next hlt =>
      show st.messageCount + 1 < 3
      omega
  · intro h
    simp [saveContext, MESSAGE_COUNT_THRESHOLD, h]

/-- Witness for C9: saving a third exchange at count 2 resets the count
and leaves exactly the summary exchange in the buffer. -/
theorem saveContext_threshold_invariant_witness :
    (saveContext thirdTryEnv { messageCount := 2, history := [] }
      "hi" "yo").messageCount < MESSAGE_COUNT_THRESHOLD ∧
    (saveContext thirdTryEnv { messageCount := 2, history := [] }
      "hi" "yo").messageCount = 0 ∧
    (saveContext thirdTryEnv { messageCount := 2, history := [] }
      "hi" "yo").history =
      [Msg.system "a short summary",
       Msg.ai "Summary processed and saved to memory"] := by
  refine ⟨(saveContext_threshold_invariant thirdTryEnv
    { messageCount := 2, history := [] } "hi" "yo").1, ?_, ?_⟩
  · exact ((saveContext_threshold_invariant thirdTryEnv
      { messageCount := 2, history := [] } "hi" "yo").2 rfl).1
  · exact ((saveContext_threshold_invariant thirdTryEnv
      { messageCount := 2, history := [] } "hi" "yo").2 rfl).2

/-- C2: transient failure to produce a response is retried up to exactly 3
attempts with exponential backoff doubling per attempt (2000 ms then
4000 ms after the first and second failures); if the first two attempts
fail and the third succeeds, exactly 3 attempts are made and the request
streams the third result; after 3 failed attempts the error is surfaced
as a 500 response; the attempt count never exceeds 3, and the streaming
response is only created from the single response the loop produced, so
no retry occurs after it has been created. -/
theorem chat_retry_policy (invoke : Nat → Option String) (r : String)
    (env : PostEnv) (store : MemoryStorage) (reqIndex : Nat)
    (req : ChatRequest) (hmiss : missingRequiredFields req = false) :
    ((invoke 0 = none ∧ invoke 1 = none ∧ invoke 2 = some r) →
      retryLoop invoke = (3, [2000, 4000], some r)) ∧
    ((invoke 0 = none ∧ invoke 1 = none ∧ invoke 2 = none) →
      retryLoop invoke = (3, [2000, 4000], none)) ∧
    (retryLoop invoke).1 ≤ 3 ∧
    ((env.invokeResults 0 = none ∧ env.invokeResults 1 = none ∧
        env.invokeResults 2 = some r) →
      (postModel env store reqIndex req).attempts = 3 ∧
      (postModel env store reqIndex req).delays = [2000, 4000] ∧
      (postModel env store reqIndex req).response =
        ChatResponse.streaming r) ∧
    ((env.invokeResults 0 = none ∧ env.invokeResults 1 = none ∧
        env.invokeResults 2 = none) →
      (postModel env store reqIndex req).response =
        ChatResponse.json 500 "Failed to process message") := by
  have key : ∀ f : Nat → Option String,
      (f 0 = none → f 1 = none → f 2 = some r →
        retryLoop f = (3, [2000, 4000], some r)) ∧
      (f 0 = none → f 1 = none → f 2 = none →
        retryLoop f = (3, [2000, 4000], none)) ∧
      (retryLoop f).1 ≤ 3 := by
    intro f
    refine ⟨fun h0 h1 h2 => ?_, fun h0 h1 h2 => ?_, ?_⟩
    · norm_num [retryLoop, retryLoopAux, h0, h1, h2]
    · norm_num [retryLoop, retryLoopAux, h0, h1, h2]
    · cases h0 : f 0 with
      | some r0 => simp [retryLoop, retryLoopAux, h0]
      | none =>
        cases h1 : f 1 with
        | some r1 => norm_num [retryLoop, retryLoopAux, h0, h1]
        | none =>
          cases h2 : f 2 with
          | some r2 => norm_num [retryLoop, retryLoopAux, h0, h1, h2]
          | none => norm_num [retryLoop, retryLoopAux, h0, h1, h2]
  have pf := postModel_fields env store reqIndex req hmiss
  refine ⟨fun h => (key invoke).1 h.1 h.2.1 h.2.2,
          fun h => (key invoke).2.1 h.1 h.2.1 h.2.2,
          (key invoke).2.2, fun h => ?_, fun h => ?_⟩
  · have hloop := (key env.invokeResults).1 h.1 h.2.1 h.2.2
    refine ⟨?_, ?_, ?_⟩
    · rw [pf.2.1, hloop]
    · rw [pf.2.2.1, hloop]
    · exact pf.2.2.2.2 r (by rw [hloop])
  · have hloop := (key env.invokeResults).2.1 h.1 h.2.1 h.2.2
    exact pf.2.2.2.1 (by rw [hloop])

/-- Witness for C2: with the first two attempts failing and the third
succeeding, the loop makes exactly 3 attempts with delays of 2000 ms and
4000 ms and the handler streams the third result; with all attempts
failing, the handler returns a 500. -/
theorem chat_retry_policy_witness :
    retryLoop thirdTryEnv.invokeResults =
      (3, [2000, 4000], some "final answer") ∧
    (postModel thirdTryEnv [] 0 sampleRequest).attempts = 3 ∧
    (postModel thirdTryEnv [] 0 sampleRequest).response =
      ChatResponse.streaming "final answer" ∧
    (postModel allFailEnv [] 0 sampleRequest).response =
      ChatResponse.json 500 "Failed to process message" := by
  have hthird := chat_retry_policy thirdTryEnv.invokeResults "final answer"
    thirdTryEnv [] 0 sampleRequest rfl
  have hfail := chat_retry_policy allFailEnv.invokeResults "final answer"
    allFailEnv [] 0 sampleRequest rfl
  refine ⟨hthird.1 ⟨rfl, rfl, rfl⟩, (hthird.2.2.2.1 ⟨rfl, rfl, rfl⟩).1,
    (hthird.2.2.2.1 ⟨rfl, rfl, rfl⟩).2.2, hfail.2.2.2.2 ⟨rfl, rfl, rfl⟩⟩

/-- Updating one key leaves every other key bound as before. -/
theorem storeLookup_update_other (st : MemoryStorage) (k sid : String)
    (v : EnhancedBufferMemory) (h : k ≠ sid) :
    storeLookup (storeUpdate st sid v) k = storeLookup st k := by
  induction st with
  | nil => rfl
  | cons hd tl ih =>
    obtain ⟨k1, v1⟩ := hd
    by_cases hk : k1 = sid
    · subst hk
      simp [storeUpdate, storeLookup, Ne.symm h]
    · simp [storeUpdate, storeLookup, hk, ih]

/-- Updating a bound key binds it to the new value. -/
theorem storeLookup_update_self (st : MemoryStorage) (sid : String)
    (v m : EnhancedBufferMemory) (h : storeLookup st sid = some m) :
    storeLookup (storeUpdate st sid v) sid = some v := by
  induction st with
  | nil => simp [storeLookup] at h
  | cons hd tl ih =>
    obtain ⟨k1, v1⟩ := hd
    by_cases hk : k1 = sid
    · subst hk
      simp [storeUpdate, storeLookup]
    · simp only [storeLookup, hk, if_false] at h
      simp [storeUpdate, storeLookup, hk, ih h]

/-- A key bound in a store stays bound, to the same value, after the
store is extended on the right. -/
theorem storeLookup_append_left (st l : MemoryStorage) (k : String)
    (m : EnhancedBufferMemory) (h : storeLookup st k = some m) :
    storeLookup (st ++ l) k = some m := by
  induction st with
  | nil => simp [storeLookup] at h
  | cons hd tl ih =>
    obtain ⟨k1, v1⟩ := hd
    by_cases hk : k1 = k
    · subst hk
      simp only [storeLookup, if_pos rfl] at h ⊢
      exact h
    · simp only [storeLookup, hk, if_false] at h ⊢
      exact ih h

/-- One POST request never evicts a stored memory: any session id bound
before the request is still bound after it, to an object with the same
identity. -/
theorem postModel_preserves_memory (env : PostEnv) (store : MemoryStorage)
    (reqIndex : Nat) (req : ChatRequest) (k : String)
    (m : EnhancedBufferMemory) (h : storeLookup store k = some m) :
    ∃ m', storeLookup (postModel env store reqIndex req).store k = some m' ∧
      m'.createdAt = m.createdAt := by
  by_cases hmiss : missingRequiredFields req = true
  · exact ⟨m, by simp [postModel, hmiss, h], rfl⟩
  · rw [Bool.not_eq_true] at hmiss
    by_cases hk : k = req.sessionId.getD ""
    · subst hk
      cases hr : (retryLoop env.invokeResults).2.2 with
        | none => exact ⟨m, by simp [postModel, hmiss, hr, h], rfl⟩
        | some r =>
          refine ⟨{ m with
            mem := saveContext env m.mem (req.message.getD "") r }, ?_, rfl⟩
          simp only [postModel, hmiss, Bool.false_eq_true, if_false, h, hr]
          exact storeLookup_update_self store _ _ m h
    · cases hl : storeLookup store (req.sessionId.getD "") with
      | some memory =>
        cases hr : (retryLoop env.invokeResults).2.2 with
        | none => exact ⟨m, by simp [postModel, hmiss, hl, hr, h], rfl⟩
        | some r =>
          refine ⟨m, ?_, rfl⟩
          simp only [postModel, hmiss, Bool.false_eq_true, if_false, hl, hr]
          rw [storeLookup_update_other _ _ _ _ hk]
          exact h
      | none =>
        have hext : storeLookup
            (store ++ [(req.sessionId.getD "",
              { createdAt := reqIndex, mem := initMemState })]) k = some m :=
          storeLookup_append_left store _ k m h
        cases hr : (retryLoop env.invokeResults).2.2 with
        | none => exact ⟨m, by simp [postModel, hmiss, hl, hr, hext], rfl⟩
        | some r =>
          refine ⟨m, ?_, rfl⟩
          simp only [postModel, hmiss, Bool.false_eq_true, if_false, hl, hr]
          rw [storeLookup_update_other _ _ _ _ hk]
          exact hext

/-- C7: entries of the process-wide `memoryStorage` map are never evicted.
Across every sequence of POST requests, once a memory is stored under a
session id it stays stored: the key remains bound after every subsequent
request (so the key set grows monotonically), and the object it maps to
keeps the identity (`createdAt`) it was allocated with, i.e. the key
continues to map to the same memory object. -/
theorem memoryStorage_never_evicts
    (reqs : List (PostEnv × ChatRequest)) (store : MemoryStorage)
    (reqIndex : Nat) (k : String) (m : EnhancedBufferMemory)
    (h : storeLookup store k = some m) :
    ∃ m', storeLookup (runRequests store reqIndex reqs) k = some m' ∧
      m'.createdAt = m.createdAt := by
  induction reqs generalizing store reqIndex m with
  | nil => exact ⟨m, h, rfl⟩
  | cons p rest ih =>
    obtain ⟨m1, h1, e1⟩ :=
      postModel_preserves_memory p.1 store reqIndex p.2 k m h
    obtain ⟨m2, h2, e2⟩ := ih _ (reqIndex + 1) m1 h1
    exact ⟨m2, by simpa [runRequests] using h2, e2.trans e1⟩

/-- Witness for C7: a session stored before two further requests (one to
the same session, one failing) is still present with its original
identity afterwards. -/
theorem memoryStorage_never_evicts_witness :
    ∃ m', storeLookup
        (runRequests [("s1", { createdAt := 0, mem := initMemState })] 1
          [(thirdTryEnv, sampleRequest), (allFailEnv, sampleRequest)])
        "s1" = some m' ∧
      m'.createdAt = ({ createdAt := 0, mem := initMemState } :
        EnhancedBufferMemory).createdAt :=
  memoryStorage_never_evicts
    [(thirdTryEnv, sampleRequest), (allFailEnv, sampleRequest)]
    [("s1", { createdAt := 0, mem := initMemState })] 1 "s1"
    { createdAt := 0, mem := initMemState } rfl

/-- After the first chunk has been applied, every further chunk is
inserted at the running cursor, so the applied text grows by
concatenation in arrival order. -/
theorem applyChunks_after_first (chunks : List (List Char)) :
    ∀ (pre applied post : List Char) (rs re : Nat),
    applyChunks
      { doc := pre ++ applied ++ post, rangeStart := rs, rangeEnd := re
        cursor := (pre ++ applied).length, firstChunkApplied := true }
      chunks =
      { doc := pre ++ applied ++ chunks.flatten ++ post, rangeStart := rs
        rangeEnd := re, cursor := (pre ++ applied ++ chunks.flatten).length
        firstChunkApplied := true } := by
  induction chunks with
  | nil =>
    intro pre applied post rs re
    simp [applyChunks]
  | cons c rest ih =>
    intro pre applied post rs re
    have step :
        applyChunk
          { doc := pre ++ applied ++ post, rangeStart := rs, rangeEnd := re
            cursor := (pre ++ applied).length, firstChunkApplied := true }
          c =
          { doc := pre ++ (applied ++ c) ++ post, rangeStart := rs
            rangeEnd := re, cursor := (pre ++ (applied ++ c)).length
            firstChunkApplied := true } := by
      simp only [applyChunk, if_true]
      rw [List.take_left, List.drop_left]
      simp [List.append_assoc, List.length_append, Nat.add_assoc]
    have unfoldStep :
        applyChunks
          { doc := pre ++ applied ++ post, rangeStart := rs, rangeEnd := re
            cursor := (pre ++ applied).length, firstChunkApplied := true }
          (c :: rest) =
        applyChunks
          { doc := pre ++ (applied ++ c) ++ post, rangeStart := rs
            rangeEnd := re, cursor := (pre ++ (applied ++ c)).length
            firstChunkApplied := true } rest := by
      simp only [applyChunks, List.foldl_cons, step]
    rw [unfoldStep, ih pre (applied ++ c) post rs re]
    simp [List.append_assoc, List.length_append, Nat.add_assoc]

/-- C5 (modelled from the spec §4.4/§5): chunks are applied to the
document in strict arrival order with no reordering or batching: for
every document split as `pre ++ orig ++ post` with the target range over
`orig`, and every nonempty finite sequence of chunks delivered in order,
the final document replaces `orig` by the concatenation of the chunks in
arrival order, and the final content of the replaced range is exactly
that concatenation, regardless of inter-chunk delay (the model has no
clock: only arrival order matters). -/
theorem chunks_applied_in_arrival_order
    (pre orig post : List Char) (chunks : List (List Char))
    (h : chunks ≠ []) :
    (applyChunks (beginEdit (pre ++ orig ++ post) pre.length
        (pre.length + orig.length)) chunks).doc =
      pre ++ chunks.flatten ++ post ∧
    replacedContent (applyChunks (beginEdit (pre ++ orig ++ post)
        pre.length (pre.length + orig.length)) chunks) =
      chunks.flatten := by
  obtain ⟨c, rest, rfl⟩ := List.exists_cons_of_ne_nil h
  have first :
      applyChunk (beginEdit (pre ++ orig ++ post) pre.length
        (pre.length + orig.length)) c =
      { doc := pre ++ c ++ post, rangeStart := pre.length
        rangeEnd := pre.length + orig.length
        cursor := (pre ++ c).length, firstChunkApplied := true } := by
    simp only [beginEdit, applyChunk, Bool.false_eq_true, if_false]
    rw [show pre.length + orig.length = (pre ++ orig).length from
      (List.length_append pre orig).symm]
    rw [List.drop_left]
    rw [List.append_assoc pre orig post, List.take_left]
    simp [List.length_append]
  have rest_eq :
      applyChunks (beginEdit (pre ++ orig ++ post) pre.length
        (pre.length + orig.length)) (c :: rest) =
      { doc := pre ++ c ++ rest.flatten ++ post, rangeStart := pre.length
        rangeEnd := pre.length + orig.length
        cursor := (pre ++ c ++ rest.flatten).length
        firstChunkApplied := true } := by
    simp only [applyChunks, List.foldl_cons, first]
    exact applyChunks_after_first rest pre c post pre.length
      (pre.length + orig.length)
  rw [rest_eq]
  constructor
  · simp [List.append_assoc]
  · unfold replacedContent
    dsimp only
    rw [show pre ++ c ++ rest.flatten ++ post =
      pre ++ (c ++ rest.flatten ++ post) from by simp [List.append_assoc]]
    rw [List.drop_left]
    rw [show (pre ++ c ++ rest.flatten).length - pre.length =
      (c ++ rest.flatten).length from by
        simp [List.length_append]]
    rw [show c ++ rest.flatten ++ post = (c ++ rest.flatten) ++ post from by
      simp [List.append_assoc]]
    rw [List.take_left]
    simp

/-- Witness for C5: with chunks "Hello, ", "world", "!" delivered in that
order over a selected range, the replaced range ends as exactly
"Hello, world!". -/
theorem chunks_applied_in_arrival_order_witness :
    replacedContent
      (applyChunks
        (beginEdit
          ("Dear reader: ".data ++ "old text".data ++ " Bye.".data)
          ("Dear reader: ".data).length
          (("Dear reader: ".data).length + ("old text".data).length))
        ["Hello, ".data, "world".data, "!".data]) =
      "Hello, world!".data := by
  have h := chunks_applied_in_arrival_order "Dear reader: ".data
    "old text".data " Bye.".data
    ["Hello, ".data, "world".data, "!".data] (by simp)
  rw [h.2]
  rfl

end Littera
